import Mathlib

set_option maxRecDepth 400000

/-!
Verification development for the trigger-time computation engine and task
lifecycle scheduler of the `simple-aitodo` repository.

Shallow embedding conventions:

* Local naive datetimes are modelled as `Nat` values counting seconds since
  the epoch 0000-03-01 00:00:00 (proleptic Gregorian calendar).  Calendar
  field accessors (`yearOf`, `monthOf`, ...) use the standard civil-calendar
  day-number algorithms.
* The calendar oracle (`holiday_dates_getter` in `app/utils/date_calculator.py`)
  is a parameter, exactly as in the source.  A year with no data is the empty
  list, matching the `if not year_data_local` test in the source.
* The external `lunardate` library call `LunarDate.fromSolarDate` is modelled
  as a parameter `conv : Nat → Nat → Nat → Option (Nat × Nat)` mapping a solar
  (year, month, day) to the lunar (month, day); `none` models the exception
  path that the source catches and turns into a `continue`.
* The `croniter` iterator is modelled over parsed cron field sets
  (`CronExpr`); the source constructs it from the expression string, and the
  string-parse-failure branch is outside this model.  `croniter.get_next`
  returns the least minute-aligned instant strictly after the current
  position, which is why the source subtracts one second when clamping to
  `start_time`.
* Date keys: the source compares `HolidayDateDB.date` (a "YYYY-MM-DD" string)
  against `strftime("%Y-%m-%d")` of the candidate; both sides are modelled by
  the (year, month, day) triple, which is in bijection with these strings.
* `limit_days` is `Optional[List[str]]` in the source and is only ever used
  via `bool(...)` and iteration, so `None` and `[]` are identified and it is
  modelled as `List String`.
-/

/-- Days since 0000-03-01 for a proleptic Gregorian civil date. -/
def daysFromCivil (y m d : Nat) : Nat :=
  let y := if m ≤ 2 then y - 1 else y
  let era := y / 400
  let yoe := y % 400
  let mp := if m > 2 then m - 3 else m + 9
  let doy := (153 * mp + 2) / 5 + d - 1
  let doe := yoe * 365 + yoe / 4 - yoe / 100 + doy
  era * 146097 + doe

/-- Civil date (year, month, day) of a day number (days since 0000-03-01). -/
def civilFromDays (z : Nat) : Nat × Nat × Nat :=
  let era := z / 146097
  let doe := z % 146097
  let yoe := (doe - doe / 1460 + doe / 36524 - doe / 146096) / 365
  let y := yoe + era * 400
  let doy := doe - (365 * yoe + yoe / 4 - yoe / 100)
  let mp := (5 * doy + 2) / 153
  let d := doy - (153 * mp + 2) / 5 + 1
  let m := if mp < 10 then mp + 3 else mp - 9
  (if m ≤ 2 then y + 1 else y, m, d)

/-- Instant (seconds since epoch) of a civil date plus time of day. -/
def mkInstant (y m d hh mi ss : Nat) : Nat :=
  daysFromCivil y m d * 86400 + hh * 3600 + mi * 60 + ss

def dayNumberOf (t : Nat) : Nat := t / 86400

def dateKey (t : Nat) : Nat × Nat × Nat := civilFromDays (dayNumberOf t)

def yearOf (t : Nat) : Nat := (dateKey t).1

def monthOf (t : Nat) : Nat := (dateKey t).2.1

def dayOf (t : Nat) : Nat := (dateKey t).2.2

def hourOf (t : Nat) : Nat := t % 86400 / 3600

def minuteOf (t : Nat) : Nat := t % 3600 / 60

/-- Python `datetime.isoweekday()`: 1 = Monday .. 7 = Sunday.
Day number 0 (0000-03-01) is a Wednesday. -/
def isoWeekday (t : Nat) : Nat := (dayNumberOf t + 2) % 7 + 1

/-- Cron day-of-week value: 0 = Sunday .. 6 = Saturday. -/
def cronDow (t : Nat) : Nat := (dayNumberOf t + 3) % 7

/-- A parsed 5-field cron expression: the set of allowed values of each
field.  `none` for the day-of-month or day-of-week field is the unrestricted
field (written as a star), which matters because standard (vixie) cron, and
`croniter` after it, accepts a day when EITHER restricted day field matches
if both are restricted. -/
structure CronExpr where
  minutes : List Nat
  hours : List Nat
  months : List Nat
  dom : Option (List Nat)
  dow : Option (List Nat)
deriving DecidableEq

def cronDayOk (e : CronExpr) (domVal dowVal : Nat) : Bool :=
  match e.dom, e.dow with
  | none, none => true
  | some l, none => l.contains domVal
  | none, some l => l.contains dowVal
  | some l1, some l2 => l1.contains domVal || l2.contains dowVal

/-- The instant `t` is minute-aligned and its calendar fields satisfy the
cron expression. -/
def cronMatches (e : CronExpr) (t : Nat) : Bool :=
  t % 60 == 0 && e.minutes.contains (minuteOf t) && e.hours.contains (hourOf t)
    && e.months.contains (monthOf t) && cronDayOk e (dayOf t) (cronDow t)

/-- Fuel-bounded linear scan for the first matching minute-aligned instant,
starting at `c` and stepping one minute at a time. -/
def cronSearch (e : CronExpr) : Nat → Nat → Option Nat
  | _, 0 => none
  | c, fuel + 1 => if cronMatches e c then some c else cronSearch e (c + 60) fuel

/-- Search budget of the modelled `croniter` iterator (minutes scanned per
`get_next` call). -/
def searchFuel : Nat := 1152000

/-- Least matching minute-aligned instant strictly after `t`
(`croniter.get_next` semantics), within the search budget. -/
def cronNextAfter (e : CronExpr) (t : Nat) : Option Nat :=
  cronSearch e ((t / 60 + 1) * 60) searchFuel

/-- The `croniter` iterator state: the expression and the current position. -/
structure CronIter where
  expr : CronExpr
  cur : Nat
deriving DecidableEq

/-- `croniter.get_next`: the next candidate strictly after the current
position, advancing the iterator; `none` models the exception path. -/
def CronIter.getNext (it : CronIter) : Option (Nat × CronIter) :=
  match cronNextAfter it.expr it.cur with
  | some c => some (c, ⟨it.expr, c⟩)
  | none => none

/-- `app/models.py` `TaskStatusEnum`. -/
inductive TaskStatusEnum where
  | PENDING
  | PENDING_CALCULATION
  | RUNNING
  | COMPLETED
  | FAILED
deriving DecidableEq

/-- `app/models.py` `HolidayDateDB` (the fields the calculator reads). -/
structure HolidayDateDB where
  date : Nat × Nat × Nat
  year : Nat
  month : Nat
  day : Nat
  week_day : Nat
  day_type : Option Nat
deriving DecidableEq

def HolidayDateDB.is_workday (h : HolidayDateDB) : Bool :=
  match h.day_type with
  | none => false
  | some dt => dt == 0

def HolidayDateDB.is_holiday (h : HolidayDateDB) : Bool :=
  match h.day_type with
  | none => false
  | some dt => dt == 1 || dt == 2

def HolidayDateDB.is_legal_holiday (h : HolidayDateDB) : Bool :=
  match h.day_type with
  | none => false
  | some dt => dt == 2

def HolidayDateDB.is_weekend (h : HolidayDateDB) : Bool :=
  match h.day_type with
  | none => false
  | some dt => (h.week_day == 6 || h.week_day == 7) && dt == 1

/-- `app/schemas.py` `CronConfig`, with the cron expression already parsed. -/
structure CronConfig where
  cron_expression : CronExpr
  start_time : Option Nat
  end_time : Option Nat
  limit_days : List String
  is_lunar : Bool
  lunar_month : Option Nat
  lunar_day : Option Nat
deriving DecidableEq

/-- The calendar oracle: year to that year's classified days.  The empty
list models "no data for the year". -/
def CalendarOracle : Type := Nat → List HolidayDateDB

/-- The external solar-to-lunar conversion (the `lunardate` library):
solar (year, month, day) to lunar (month, day); `none` models a raised and
caught conversion exception. -/
def LunarConv : Type := Nat → Nat → Nat → Option (Nat × Nat)

/-- Python `str.upper()` for the ASCII filter names (a character-map that
the kernel can evaluate, unlike the core string-level helper). -/
def strUpper (s : String) : String := String.mk (s.data.map Char.toUpper)

/-- Python `str.lower()` for the ASCII countdown strings. -/
def strLower (s : String) : String := String.mk (s.data.map Char.toLower)

/-- The `limit_days` matching loop of `get_next_cron_run_time`
(`date_calculator.py` lines 142-148): the candidate day matches when at
least one listed filter accepts it. -/
def dayMatchedLimit (limits : List String) (info : HolidayDateDB) (c : Nat) : Bool :=
  limits.any fun ls =>
    let lt := strUpper ls
    (lt == "WORKDAY" && info.is_workday)
      || (lt == "HOLIDAY" && info.is_holiday)
      || (lt == "WEEKEND" && info.is_weekend)
      || (lt == "WEEKDAY_ONLY" && decide (1 ≤ isoWeekday c) && decide (isoWeekday c ≤ 5))

/-- Outcome of one loop iteration of `get_next_cron_run_time` on one
candidate: either an early `return` or a `continue`. -/
inductive StepOut where
  | skip
  | ret (r : Option Nat × TaskStatusEnum)
deriving DecidableEq

/-- The `limit_days` section of the loop body (`date_calculator.py`
lines 137-153), including the final unconditional `return PENDING`. -/
def limitDaysCheck (cfg : CronConfig) (info? : Option HolidayDateDB) (c : Nat) : StepOut :=
  if cfg.limit_days.isEmpty then .ret (some c, .PENDING)
  else
    match info? with
    | none => .ret (some c, .PENDING_CALCULATION)
    | some info =>
      if dayMatchedLimit cfg.limit_days info c then .ret (some c, .PENDING) else .skip

/-- The `current_day_holiday_info` lookup of the loop body
(`date_calculator.py` lines 90-102): performed only when `limit_days` is
non-empty, and the first entry of the year whose date equals the candidate
date. -/
def stepInfo (cfg : CronConfig) (oracle : CalendarOracle) (c : Nat) : Option HolidayDateDB :=
  if !cfg.limit_days.isEmpty then (oracle (yearOf c)).find? (fun d => d.date == dateKey c)
  else none

/-- One iteration of the candidate loop of `get_next_cron_run_time`
(`date_calculator.py` lines 83-153) applied to candidate `c`. -/
def stepResult (cfg : CronConfig) (oracle : CalendarOracle) (conv : LunarConv)
    (c : Nat) : StepOut :=
  if cfg.end_time.elim false (fun e => decide (e < c)) then .ret (none, .COMPLETED)
  else if cfg.start_time.elim false (fun s => decide (c < s)) then .skip
  else if !cfg.limit_days.isEmpty && (oracle (yearOf c)).isEmpty then
    .ret (some c, .PENDING_CALCULATION)
  else if !cfg.limit_days.isEmpty && (stepInfo cfg oracle c).isNone then
    .ret (some c, .PENDING_CALCULATION)
  else if cfg.is_lunar then
    match cfg.lunar_month, cfg.lunar_day with
    | some lm, some ld =>
      match conv (yearOf c) (monthOf c) (dayOf c) with
      | some (m, d) =>
        if m == lm && d == ld then limitDaysCheck cfg (stepInfo cfg oracle c) c else .skip
      | none => .skip
    | _, _ => .ret (none, .FAILED)
  else limitDaysCheck cfg (stepInfo cfg oracle c) c

/-- The attempt bound of `get_next_cron_run_time` (`max_attempts = 366 * 2`). -/
def maxAttempts : Nat := 366 * 2

/-- The bounded candidate loop of `get_next_cron_run_time`: each iteration
pulls the next candidate from the iterator (a failure of `get_next` is the
caught-exception branch returning FAILED) and either returns or continues;
exhausted fuel is the post-loop `return None, FAILED`. -/
def cronLoop (cfg : CronConfig) (oracle : CalendarOracle) (conv : LunarConv) :
    CronIter → Nat → Option Nat × TaskStatusEnum
  | _, 0 => (none, .FAILED)
  | it, fuel + 1 =>
    match it.getNext with
    | none => (none, .FAILED)
    | some (c, it2) =>
      match stepResult cfg oracle conv c with
      | .ret r => r
      | .skip => cronLoop cfg oracle conv it2 fuel

/-- `app/utils/date_calculator.py` `get_next_cron_run_time`. -/
def get_next_cron_run_time (cfg : CronConfig) (base_local_time : Nat)
    (oracle : CalendarOracle) (conv : LunarConv) : Option Nat × TaskStatusEnum :=
  let base :=
    match cfg.start_time with
    | some s => if base_local_time < s then s - 1 else base_local_time
    | none => base_local_time
  cronLoop cfg oracle conv ⟨cfg.cron_expression, base⟩ maxAttempts

/-- Digits of a countdown component to a number. -/
def digitsToNat (ds : List Char) : Nat :=
  ds.foldl (fun a c => a * 10 + (c.toNat - 48)) 0

/-- One optional group `((\d+)u)?` of the countdown regular expression:
consume a digit run followed by the unit character, or consume nothing. -/
def parseUnitGroup (u : Char) (cs : List Char) : Option Nat × List Char :=
  let ds := cs.takeWhile Char.isDigit
  let rest := cs.dropWhile Char.isDigit
  if ds.isEmpty then (none, cs)
  else
    match rest with
    | c :: rest2 => if c == u then (some (digitsToNat ds), rest2) else (none, cs)
    | [] => (none, cs)

/-- `app/utils/date_calculator.py` `parse_countdown_duration`: the duration
in seconds, or an error for a string the anchored regular expression rejects
or one with no unit present at all. -/
def parse_countdown_duration (duration_str : String) : Except String Nat :=
  let cs0 := (strLower duration_str).data
  let (d?, cs1) := parseUnitGroup 'd' cs0
  let (h?, cs2) := parseUnitGroup 'h' cs1
  let (m?, cs3) := parseUnitGroup 'm' cs2
  let (s?, cs4) := parseUnitGroup 's' cs3
  if !cs4.isEmpty then .error "invalid countdown format"
  else if d?.isNone && h?.isNone && m?.isNone && s?.isNone then
    .error "empty countdown duration"
  else
    .ok (d?.getD 0 * 86400 + h?.getD 0 * 3600 + m?.getD 0 * 60 + s?.getD 0)

/-- `app/schemas.py` `TaskInfoCreate` (the scheduling-relevant fields):
`one_time_specific_config` carries the `trigger_at` instant and
`countdown_config` the `countdown_duration` string. -/
structure TaskInfoCreate where
  is_recurring : Bool
  cron_config : Option CronConfig
  one_time_specific_config : Option Nat
  countdown_config : Option String
deriving DecidableEq

/-- `app/utils/date_calculator.py` `calculate_initial_trigger_time`.  The
`datetime.now()` read is the `current_local_time` parameter; `Except.error`
models the two `raise ValueError` branches for ill-formed configurations. -/
def calculate_initial_trigger_time (task_info : TaskInfoCreate)
    (current_local_time : Nat) (oracle : CalendarOracle) (conv : LunarConv) :
    Except String (Option Nat × TaskStatusEnum) :=
  if task_info.is_recurring then
    match task_info.cron_config with
    | none => .error "recurring task lacks cron_config"
    | some cfg => .ok (get_next_cron_run_time cfg current_local_time oracle conv)
  else
    match task_info.one_time_specific_config with
    | some trigger_at_local =>
      if trigger_at_local ≤ current_local_time then
        .ok (some (current_local_time + 1), .PENDING)
      else .ok (some trigger_at_local, .PENDING)
    | none =>
      match task_info.countdown_config with
      | some dur =>
        match parse_countdown_duration dur with
        | .ok delta => .ok (some (current_local_time + delta), .PENDING)
        | .error _ => .ok (none, .FAILED)
      | none => .error "one-shot task lacks a config"

/-- The trigger/status pairing invariant of both calculator entry points:
a trigger instant is present exactly for PENDING and PENDING_CALCULATION
results, and FAILED or COMPLETED results carry no trigger. -/
def statusInv (r : Option Nat × TaskStatusEnum) : Prop :=
  (r.1.isSome = true ↔ (r.2 = .PENDING ∨ r.2 = .PENDING_CALCULATION))
    ∧ ((r.2 = .FAILED ∨ r.2 = .COMPLETED) → r.1 = none)

/-- Observable effects of `execute_task_by_id` (`app/services/task_executor.py`):
committed status writes, committed next-trigger writes, and live-scheduler
arm/remove calls, in program order. -/
inductive ExecEvent where
  | setStatus (s : TaskStatusEnum)
  | setNextTrigger (t? : Option Nat)
  | armJob (job_id : String) (t : Nat)
  | removeJob (job_id : String)
deriving DecidableEq

/-- The fields of the stored `task_info` that steer `execute_task_by_id`.
The notification channels are reduced to their presence; the payload of a
channel does not affect the control flow modelled here. -/
structure ExecTaskInfo where
  cron_config : Option CronConfig
  triggering_user_id : Option String
  target_chat_id : Option String
  has_webhook_channel : Bool
  has_email_channel : Bool
deriving DecidableEq

/-- `app/models.py` `ReminderTaskDB` as loaded by the executor. -/
structure ExecTask where
  id : String
  task_name : String
  status : TaskStatusEnum
  next_trigger_time : Option Nat
  is_recurring : Bool
  task_info : ExecTaskInfo
deriving DecidableEq

/-- The tail of `execute_task_by_id` after the notification outcome is
committed (`task_executor.py` lines 118-145): recompute and re-arm for
recurring tasks with a cron config, retire the timer otherwise. -/
def recurringTail (task_id : String) (task : ExecTask) (now : Nat)
    (oracle : CalendarOracle) (conv : LunarConv) : List ExecEvent :=
  match task.is_recurring, task.task_info.cron_config with
  | true, some cfg =>
    let r := get_next_cron_run_time cfg now oracle conv
    [.setNextTrigger r.1, .setStatus r.2] ++
      match r with
      | (some t, .PENDING) => [.armJob task_id t]
      | _ => [.removeJob task_id]
  | _, _ => [.setNextTrigger none, .removeJob task_id]

/-- `app/services/task_executor.py` `execute_task_by_id` as an effect trace.
Parameters: the task loaded for the fired id (`none` models a missing row),
whether the mail settings are complete, the notification send outcome, and
the `datetime.now()` read before recomputing the next occurrence. -/
def execute_task_by_id (task_id : String) (task? : Option ExecTask)
    (mail_configured : Bool) (send_ok : Bool) (now : Nat)
    (oracle : CalendarOracle) (conv : LunarConv) : List ExecEvent :=
  match task? with
  | none => [.removeJob task_id]
  | some task =>
    if !(task.status == .PENDING || task.status == .RUNNING) then
      if task.next_trigger_time.isNone then [.removeJob task_id] else []
    else
      [ExecEvent.setStatus .RUNNING] ++
        match task.task_info.target_chat_id.orElse (fun _ => task.task_info.triggering_user_id) with
        | none =>
          [.setStatus .FAILED] ++ if !task.is_recurring then [.removeJob task_id] else []
        | some _ =>
          if task.task_info.has_webhook_channel then
            [.setStatus (if send_ok then .COMPLETED else .FAILED)] ++
              recurringTail task_id task now oracle conv
          else if task.task_info.has_email_channel then
            [.setStatus (if mail_configured && send_ok then .COMPLETED else .FAILED)] ++
              recurringTail task_id task now oracle conv
          else
            [.setStatus .FAILED] ++ if !task.is_recurring then [.removeJob task_id] else []

/-- A live APScheduler job record: run date and misfire grace window. -/
structure SchedJob where
  run_date : Nat
  misfire_grace_time : Nat
deriving DecidableEq

/-- `app/services/task_scheduler.py` `add_or_update_job_in_scheduler` acting
on the live timer map (modelled as an association list): no next trigger
means no change; otherwise the job with this id is replaced
(`replace_existing=True`), with the recurring-or-not grace window of the
source (`task.is_recurring and 3600 or 600`). -/
def add_or_update_job_in_scheduler (jobs : List (String × SchedJob))
    (task : ExecTask) : List (String × SchedJob) :=
  match task.next_trigger_time with
  | none => jobs
  | some t =>
    jobs.filter (fun j => j.1 != task.id) ++
      [(task.id, ⟨t, if task.is_recurring then 3600 else 600⟩)]

/-- A cron expression firing every minute. -/
def everyMinuteExpr : CronExpr :=
  ⟨List.range 60, List.range 24, [1, 2, 3, 4, 5, 6, 7, 8, 9, 10, 11, 12], none, none⟩

/-- A cron expression firing daily at local midnight. -/
def dailyMidnightExpr : CronExpr :=
  ⟨[0], [0], [1, 2, 3, 4, 5, 6, 7, 8, 9, 10, 11, 12], none, none⟩

/-- An oracle with no calendar data for any year. -/
def oracleUnknown : CalendarOracle := fun _ => []

/-- A conversion on which every call is the caught exception path. -/
def convNone : LunarConv := fun _ _ _ => none

/-- A conversion agreeing with the actual Chinese lunisolar calendar on
2025-01-29, the 2025 lunar new year (lunar month 1, day 1). -/
def convCNY2025 : LunarConv := fun y m d =>
  if y == 2025 && m == 1 && d == 29 then some (1, 1) else some (12, 28)

/-- A conversion that never yields lunar month 2 day 30. -/
def convAlwaysFirst : LunarConv := fun _ _ _ => some (1, 1)

def base2025 : Nat := mkInstant 2025 1 1 0 0 0

/-- Lunar rule for lunar 1/1, daily midnight candidates, no day-type
filter. -/
def cfgLunarOnly : CronConfig := ⟨dailyMidnightExpr, none, none, [], true, some 1, some 1⟩

/-- Day-type filtered rule (workdays), every-minute candidates. -/
def cfgWorkdayFilter : CronConfig := ⟨everyMinuteExpr, none, none, ["WORKDAY"], false, none, none⟩

/-- Plain rule: no lunar matching, no filter, no bounds. -/
def cfgPlainMidnight : CronConfig := ⟨dailyMidnightExpr, none, none, [], false, none, none⟩

/-- Structurally unsatisfiable lunar rule: lunar month 2 day 30. -/
def cfgLunar230 : CronConfig := ⟨everyMinuteExpr, none, none, [], true, some 2, some 30⟩

/-- A plain every-minute rule: no lunar matching, no filter, no bounds. -/
def cfgPlainMinute : CronConfig := ⟨everyMinuteExpr, none, none, [], false, none, none⟩

/-- Calendar data for 2025-01-01 only: a workday (day_type 0), Wednesday. -/
def oracleJan1Workday : CalendarOracle := fun y =>
  if y == 2025 then [⟨(2025, 1, 1), 2025, 1, 1, 3, some 0⟩] else []

/-- A recurring webhook task in a fireable state. -/
def task7 : ExecTask :=
  ⟨"t7", "morning check", .PENDING, some base2025, true,
    ⟨some cfgPlainMinute, some "wxid_alice", some "group1@chatroom", true, false⟩⟩

/-- A completed task whose stored next trigger time is still set. -/
def task8stale : ExecTask :=
  ⟨"t8", "stale", .COMPLETED, some 100, false,
    ⟨none, some "wxid_bob", none, true, false⟩⟩

/-- A completed task with no stored next trigger time. -/
def task8clean : ExecTask :=
  ⟨"t8c", "stale clean", .COMPLETED, none, false,
    ⟨none, some "wxid_bob", none, true, false⟩⟩

/-- A pending one-shot task used for the timer-map upsert witness. -/
def task9 : ExecTask :=
  ⟨"t9", "once", .PENDING, some 5000, false,
    ⟨none, some "wxid_carol", none, true, false⟩⟩

/-! ## Properties of the candidate search -/

theorem cronMatches_not_aligned (e : CronExpr) (u : Nat) (h : ¬ u % 60 = 0) :
    cronMatches e u = false := by
  have hb : (u % 60 == 0) = false := by simpa using h
  simp [cronMatches, hb]

theorem cronMatches_aligned (e : CronExpr) (u : Nat) (h : cronMatches e u = true) :
    u % 60 = 0 := by
  by_contra hne
  rw [cronMatches_not_aligned e u hne] at h
  exact Bool.false_ne_true h

theorem cronSearch_spec (e : CronExpr) :
    ∀ fuel c r, c % 60 = 0 → cronSearch e c fuel = some r →
      cronMatches e r = true ∧ c ≤ r ∧ ∀ u, c ≤ u → u < r → cronMatches e u = false := by
  intro fuel
  induction fuel with
  | zero => intro c r _ h; simp [cronSearch] at h
  | succ f ih =>
    intro c r hc h
    unfold cronSearch at h
    cases hb : cronMatches e c with
    | true =>
      rw [if_pos hb] at h
      obtain rfl : c = r := Option.some.inj h
      exact ⟨hb, Nat.le_refl c, fun u h1 h2 => absurd (Nat.lt_of_le_of_lt h1 h2) (Nat.lt_irrefl c)⟩
    | false =>
      rw [if_neg (by simp [hb])] at h
      obtain ⟨h1, h2, h3⟩ := ih (c + 60) r (by omega) h
      refine ⟨h1, by omega, ?_⟩
      intro u hu1 hu2
      rcases Nat.lt_or_ge u (c + 60) with hlt | hge
      · rcases Nat.eq_or_lt_of_le hu1 with rfl | hgt
        · exact hb
        · exact cronMatches_not_aligned e u (by omega)
      · exact h3 u hge hu2

theorem cronNextAfter_spec (e : CronExpr) (t r : Nat) (h : cronNextAfter e t = some r) :
    cronMatches e r = true ∧ t < r ∧ ∀ u, t < u → cronMatches e u = true → r ≤ u := by
  unfold cronNextAfter at h
  have hc : ((t / 60 + 1) * 60) % 60 = 0 := by omega
  obtain ⟨h1, h2, h3⟩ := cronSearch_spec e searchFuel _ r hc h
  refine ⟨h1, by omega, ?_⟩
  intro u hu hm
  by_contra hru
  have hur : u < r := by omega
  have halign := cronMatches_aligned e u hm
  have hge : (t / 60 + 1) * 60 ≤ u := by omega
  rw [h3 u hge hur] at hm
  exact Bool.false_ne_true hm

theorem cronLoop_succ_ret (cfg : CronConfig) (oracle : CalendarOracle) (conv : LunarConv)
    (it it2 : CronIter) (fuel c : Nat) (r : Option Nat × TaskStatusEnum)
    (hnext : it.getNext = some (c, it2))
    (hstep : stepResult cfg oracle conv c = .ret r) :
    cronLoop cfg oracle conv it (fuel + 1) = r := by
  unfold cronLoop
  rw [hnext]
  show (match stepResult cfg oracle conv c with
    | StepOut.ret r => r
    | StepOut.skip => cronLoop cfg oracle conv it2 fuel) = r
  rw [hstep]

theorem get_next_no_start_eq (cfg : CronConfig) (base : Nat) (oracle : CalendarOracle)
    (conv : LunarConv) (hs : cfg.start_time = none) :
    get_next_cron_run_time cfg base oracle conv
      = cronLoop cfg oracle conv ⟨cfg.cron_expression, base⟩ maxAttempts := by
  unfold get_next_cron_run_time
  rw [hs]

theorem stepResult_plain (cfg : CronConfig) (oracle : CalendarOracle) (conv : LunarConv)
    (c : Nat) (hl : cfg.limit_days = []) (hlun : cfg.is_lunar = false)
    (hs : cfg.start_time = none) (he : cfg.end_time = none) :
    stepResult cfg oracle conv c = .ret (some c, .PENDING) := by
  simp [stepResult, limitDaysCheck, hl, hlun, hs, he, Option.elim]

theorem stepResult_missing_calendar (cfg : CronConfig) (oracle : CalendarOracle)
    (conv : LunarConv) (c : Nat) (hl : cfg.limit_days ≠ [])
    (hs : cfg.start_time = none) (he : cfg.end_time = none)
    (hmiss : ∀ d ∈ oracle (yearOf c), d.date ≠ dateKey c) :
    stepResult cfg oracle conv c = .ret (some c, .PENDING_CALCULATION) := by
  have hl2 : cfg.limit_days.isEmpty = false := by
    cases hL : cfg.limit_days with
    | nil => exact absurd hL hl
    | cons a as => rfl
  have hfind : (oracle (yearOf c)).find? (fun d => d.date == dateKey c) = none := by
    rw [List.find?_eq_none]
    intro d hd
    simpa using hmiss d hd
  have hinfo : stepInfo cfg oracle c = none := by simp [stepInfo, hl2, hfind]
  unfold stepResult
  rw [hs, he]
  cases hyd : (oracle (yearOf c)).isEmpty with
  | true => simp [hl2, hyd]
  | false => simp [hl2, hyd, hinfo]

theorem cronLoop_all_skip (cfg : CronConfig) (oracle : CalendarOracle) (conv : LunarConv)
    (h : ∀ c, stepResult cfg oracle conv c = .skip) :
    ∀ fuel it, cronLoop cfg oracle conv it fuel = (none, .FAILED) := by
  intro fuel
  induction fuel with
  | zero => intro it; rfl
  | succ f ih =>
    intro it
    unfold cronLoop
    cases hn : it.getNext with
    | none => rfl
    | some p =>
      show (match stepResult cfg oracle conv p.1 with
        | StepOut.ret r => r
        | StepOut.skip => cronLoop cfg oracle conv p.2 f) = (none, .FAILED)
      rw [h p.1]
      exact ih p.2

/-! ## Claims -/

/-- C1, counterexample.  A recurring rule that requires lunar matching but no
day-type filter, evaluated against an oracle that reports every year unknown:
the computation returns the matched candidate with status PENDING, not
PENDING_CALCULATION, because the source consults the calendar oracle only
when `limit_days` is non-empty.  The conversion used agrees with the actual
Chinese lunisolar calendar on the one date examined (2025-01-29, lunar new
year 2025). -/
theorem claim_C1_counterexample :
    get_next_cron_run_time cfgLunarOnly (mkInstant 2025 1 28 12 0 0) oracleUnknown convCNY2025
      = (some (mkInstant 2025 1 29 0 0 0), TaskStatusEnum.PENDING)
      ∧ TaskStatusEnum.PENDING ≠ TaskStatusEnum.PENDING_CALCULATION := by
  exact ⟨by decide, by decide⟩

/-- C1, amended.  For every recurring rule with a non-empty day-type filter
(`limit_days`), if the oracle has no entry for the first candidate date,
whether because the whole year is unknown or because just that date is
missing, the computation returns the unresolved candidate instant with
status PENDING_CALCULATION: never FAILED and never an exception. -/
theorem claim_C1_amended (cfg : CronConfig) (base c : Nat) (oracle : CalendarOracle)
    (conv : LunarConv) (hl : cfg.limit_days ≠ [])
    (hs : cfg.start_time = none) (he : cfg.end_time = none)
    (hc : cronNextAfter cfg.cron_expression base = some c)
    (hmiss : ∀ d ∈ oracle (yearOf c), d.date ≠ dateKey c) :
    get_next_cron_run_time cfg base oracle conv = (some c, .PENDING_CALCULATION) := by
  rw [get_next_no_start_eq cfg base oracle conv hs]
  have hnext : CronIter.getNext ⟨cfg.cron_expression, base⟩
      = some (c, ⟨cfg.cron_expression, c⟩) := by
    simp [CronIter.getNext, hc]
  exact cronLoop_succ_ret cfg oracle conv _ _ 731 c _ hnext
    (stepResult_missing_calendar cfg oracle conv c hl hs he hmiss)

/-- C1, witness: a workday-filtered every-minute rule with an oracle knowing
no year returns the first candidate with PENDING_CALCULATION. -/
theorem claim_C1_amended_witness :
    get_next_cron_run_time cfgWorkdayFilter base2025 oracleUnknown convNone
      = (some (base2025 + 60), .PENDING_CALCULATION) := by
  exact claim_C1_amended cfgWorkdayFilter base2025 (base2025 + 60) oracleUnknown convNone
    (by decide) rfl rfl (by decide) (by intro d hd; simp [oracleUnknown] at hd)

/-- C2, counterexample.  For a plain (non-lunar, unfiltered, unbounded)
every-minute rule with a base instant that itself satisfies the expression,
the earliest satisfying instant at or after the base is the base itself, but
the computation returns the base plus one minute: `croniter` candidates are
strictly after the base, so the returned trigger is not the earliest
satisfying instant greater than or equal to the base. -/
theorem claim_C2_counterexample :
    cronMatches everyMinuteExpr base2025 = true
      ∧ get_next_cron_run_time cfgPlainMinute base2025 oracleUnknown convNone
          = (some (base2025 + 60), TaskStatusEnum.PENDING)
      ∧ base2025 + 60 ≠ base2025 := by
  exact ⟨by decide, by decide, by decide⟩

/-- C2, amended.  For every well-formed cron rule used without lunar
matching, day-type filter or start/end bounds, the computation returns
status PENDING with a trigger t that is strictly greater than the base
instant, whose fields satisfy the cron expression, and that is the earliest
satisfying instant strictly greater than the base instant. -/
theorem claim_C2_amended (cfg : CronConfig) (base t : Nat) (oracle : CalendarOracle)
    (conv : LunarConv) (hlun : cfg.is_lunar = false) (hl : cfg.limit_days = [])
    (hs : cfg.start_time = none) (he : cfg.end_time = none)
    (hc : cronNextAfter cfg.cron_expression base = some t) :
    get_next_cron_run_time cfg base oracle conv = (some t, .PENDING)
      ∧ cronMatches cfg.cron_expression t = true ∧ base < t
      ∧ ∀ u, base < u → cronMatches cfg.cron_expression u = true → t ≤ u := by
  obtain ⟨h1, h2, h3⟩ := cronNextAfter_spec cfg.cron_expression base t hc
  refine ⟨?_, h1, h2, h3⟩
  rw [get_next_no_start_eq cfg base oracle conv hs]
  have hnext : CronIter.getNext ⟨cfg.cron_expression, base⟩
      = some (t, ⟨cfg.cron_expression, t⟩) := by
    simp [CronIter.getNext, hc]
  exact cronLoop_succ_ret cfg oracle conv _ _ 731 t _ hnext
    (stepResult_plain cfg oracle conv t hl hlun hs he)

/-- C2, witness: the plain every-minute rule from one minute past midnight. -/
theorem claim_C2_amended_witness :
    get_next_cron_run_time cfgPlainMinute (base2025 + 60) oracleUnknown convNone
      = (some (base2025 + 120), .PENDING)
      ∧ cronMatches cfgPlainMinute.cron_expression (base2025 + 120) = true
      ∧ base2025 + 60 < base2025 + 120
      ∧ ∀ u, base2025 + 60 < u
          → cronMatches cfgPlainMinute.cron_expression u = true → base2025 + 120 ≤ u := by
  exact claim_C2_amended cfgPlainMinute (base2025 + 60) (base2025 + 120) oracleUnknown convNone
    rfl rfl rfl rfl (by decide)

/-- C4.  The recurring-rule candidate search is bounded by
`max_attempts = 366 * 2 = 732` candidates; whenever every candidate is
rejected by the filters (the loop body always continues), the bound is
exhausted and the computation returns no trigger and status FAILED. -/
theorem claim_C4 (cfg : CronConfig) (base : Nat) (oracle : CalendarOracle)
    (conv : LunarConv) (h : ∀ c, stepResult cfg oracle conv c = .skip) :
    maxAttempts = 732
      ∧ get_next_cron_run_time cfg base oracle conv = (none, .FAILED) := by
  refine ⟨rfl, ?_⟩
  unfold get_next_cron_run_time
  exact cronLoop_all_skip cfg oracle conv h maxAttempts _

/-- C4, witness: a lunar rule demanding lunar month 2 day 30, which the
conversion never produces, exhausts all 732 every-minute candidates and
fails. -/
theorem claim_C4_witness :
    maxAttempts = 732
      ∧ get_next_cron_run_time cfgLunar230 base2025 oracleUnknown convAlwaysFirst
          = (none, .FAILED) := by
  exact claim_C4 cfgLunar230 base2025 oracleUnknown convAlwaysFirst (fun c => rfl)

theorem stepInfo_some (cfg : CronConfig) (oracle : CalendarOracle) (c : Nat)
    (info : HolidayDateDB) (h : stepInfo cfg oracle c = some info) :
    info ∈ oracle (yearOf c) ∧ info.date = dateKey c := by
  unfold stepInfo at h
  split at h
  · refine ⟨List.mem_of_find?_eq_some h, ?_⟩
    have hp := List.find?_some h
    simpa using hp
  · simp at h

theorem limitDaysCheck_ret_pending (cfg : CronConfig) (info? : Option HolidayDateDB)
    (c t : Nat) (hL : cfg.limit_days ≠ [])
    (h : limitDaysCheck cfg info? c = .ret (some t, .PENDING)) :
    t = c ∧ ∃ info, info? = some info ∧ dayMatchedLimit cfg.limit_days info c = true := by
  have hl2 : cfg.limit_days.isEmpty = false := by
    cases hx : cfg.limit_days with
    | nil => exact absurd hx hL
    | cons a as => rfl
  unfold limitDaysCheck at h
  rw [hl2] at h
  simp only [Bool.false_eq_true, if_false] at h
  cases hi : info? with
  | none => rw [hi] at h; simp at h
  | some info =>
    simp only [hi] at h
    by_cases hd : dayMatchedLimit cfg.limit_days info c = true
    · rw [if_pos hd] at h
      simp only [StepOut.ret.injEq, Prod.mk.injEq, Option.some.injEq] at h
      exact ⟨h.1.symm, info, rfl, hd⟩
    · rw [if_neg hd] at h
      simp at h

theorem stepResult_ret_pending (cfg : CronConfig) (oracle : CalendarOracle)
    (conv : LunarConv) (c t : Nat) (hL : cfg.limit_days ≠ [])
    (h : stepResult cfg oracle conv c = .ret (some t, .PENDING)) :
    t = c ∧ ∃ info, info ∈ oracle (yearOf c) ∧ info.date = dateKey c ∧
      dayMatchedLimit cfg.limit_days info c = true := by
  have hfin : ∀ info?, limitDaysCheck cfg info? c = .ret (some t, .PENDING) →
      info? = stepInfo cfg oracle c →
      t = c ∧ ∃ info, info ∈ oracle (yearOf c) ∧ info.date = dateKey c ∧
        dayMatchedLimit cfg.limit_days info c = true := by
    intro info? hlim hinfo
    obtain ⟨ht, info, hsome, hmatch⟩ := limitDaysCheck_ret_pending cfg info? c t hL hlim
    rw [hinfo] at hsome
    obtain ⟨hmem, hdate⟩ := stepInfo_some cfg oracle c info hsome
    exact ⟨ht, info, hmem, hdate, hmatch⟩
  unfold stepResult at h
  split at h
  · simp at h
  · split at h
    · simp at h
    · split at h
      · simp at h
      · split at h
        · simp at h
        · split at h
          · -- lunar branch
            split at h
            · split at h
              · split at h
                · exact hfin _ h rfl
                · simp at h
              · simp at h
            · simp at h
          · exact hfin _ h rfl

theorem cronLoop_pending (cfg : CronConfig) (oracle : CalendarOracle) (conv : LunarConv)
    (hL : cfg.limit_days ≠ []) :
    ∀ fuel it t, cronLoop cfg oracle conv it fuel = (some t, .PENDING) →
      ∃ info, info ∈ oracle (yearOf t) ∧ info.date = dateKey t ∧
        dayMatchedLimit cfg.limit_days info t = true := by
  intro fuel
  induction fuel with
  | zero => intro it t h; simp [cronLoop] at h
  | succ f ih =>
    intro it t h
    unfold cronLoop at h
    cases hn : it.getNext with
    | none => rw [hn] at h; simp at h
    | some p =>
      rw [hn] at h
      obtain ⟨c, it2⟩ := p
      change (match stepResult cfg oracle conv c with
        | StepOut.ret r => r
        | StepOut.skip => cronLoop cfg oracle conv it2 f) = (some t, .PENDING) at h
      cases hstep : stepResult cfg oracle conv c with
      | skip =>
        rw [hstep] at h
        exact ih it2 t h
      | ret r =>
        rw [hstep] at h
        change r = (some t, .PENDING) at h
        rw [h] at hstep
        obtain ⟨rfl, info, hmem, hdate, hmatch⟩ :=
          stepResult_ret_pending cfg oracle conv c t hL hstep
        exact ⟨info, hmem, hdate, hmatch⟩

theorem is_workday_iff (hd : HolidayDateDB) :
    hd.is_workday = true ↔ hd.day_type = some 0 := by
  cases h : hd.day_type <;> simp [HolidayDateDB.is_workday, h]

theorem is_holiday_iff (hd : HolidayDateDB) :
    hd.is_holiday = true ↔ hd.day_type = some 1 ∨ hd.day_type = some 2 := by
  cases h : hd.day_type <;> simp [HolidayDateDB.is_holiday, h]

theorem is_weekend_iff (hd : HolidayDateDB) :
    hd.is_weekend = true ↔ (hd.week_day = 6 ∨ hd.week_day = 7) ∧ hd.day_type = some 1 := by
  cases h : hd.day_type <;> simp [HolidayDateDB.is_weekend, h]

/-- C3.  With a non-empty day-type filter, a candidate instant is returned
as the PENDING trigger only if calendar data for its date was found and the
day satisfies at least one listed filter, with the filter meanings of the
source: WORKDAY is day_type 0, HOLIDAY is day_type 1 or 2, WEEKEND is
day_type 1 with week_day 6 or 7, and WEEKDAY_ONLY is ISO weekday 1..5
independent of the calendar entry.  A candidate matching no listed filter is
skipped, so it can never be the returned trigger. -/
theorem claim_C3 (cfg : CronConfig) (base : Nat) (oracle : CalendarOracle)
    (conv : LunarConv) (t : Nat) (hL : cfg.limit_days ≠ [])
    (h : get_next_cron_run_time cfg base oracle conv = (some t, .PENDING)) :
    ∃ info, info ∈ oracle (yearOf t) ∧ info.date = dateKey t ∧
      (((∃ s ∈ cfg.limit_days, strUpper s = "WORKDAY") ∧ info.day_type = some 0)
        ∨ ((∃ s ∈ cfg.limit_days, strUpper s = "HOLIDAY")
            ∧ (info.day_type = some 1 ∨ info.day_type = some 2))
        ∨ ((∃ s ∈ cfg.limit_days, strUpper s = "WEEKEND")
            ∧ (info.week_day = 6 ∨ info.week_day = 7) ∧ info.day_type = some 1)
        ∨ ((∃ s ∈ cfg.limit_days, strUpper s = "WEEKDAY_ONLY")
            ∧ 1 ≤ isoWeekday t ∧ isoWeekday t ≤ 5)) := by
  unfold get_next_cron_run_time at h
  obtain ⟨info, hmem, hdate, hmatch⟩ :=
    cronLoop_pending cfg oracle conv hL maxAttempts _ t h
  refine ⟨info, hmem, hdate, ?_⟩
  simp only [dayMatchedLimit, List.any_eq_true, Bool.or_eq_true, Bool.and_eq_true,
    beq_iff_eq, decide_eq_true_eq] at hmatch
  obtain ⟨s, hs, hb⟩ := hmatch
  rcases hb with ((⟨h1, h2⟩ | ⟨h1, h2⟩) | ⟨h1, h2⟩) | ⟨⟨h1, h2⟩, h3⟩
  · exact Or.inl ⟨⟨s, hs, h1⟩, (is_workday_iff info).mp h2⟩
  · exact Or.inr (Or.inl ⟨⟨s, hs, h1⟩, (is_holiday_iff info).mp h2⟩)
  · obtain ⟨hw, hdt⟩ := (is_weekend_iff info).mp h2
    exact Or.inr (Or.inr (Or.inl ⟨⟨s, hs, h1⟩, hw, hdt⟩))
  · exact Or.inr (Or.inr (Or.inr ⟨⟨s, hs, h1⟩, h2, h3⟩))

/-- C3, witness: the workday filter accepts 2025-01-01 at one minute past
midnight when the oracle classifies that date as a workday. -/
theorem claim_C3_witness :
    ∃ info, info ∈ oracleJan1Workday (yearOf (base2025 + 60))
      ∧ info.date = dateKey (base2025 + 60)
      ∧ (((∃ s ∈ cfgWorkdayFilter.limit_days, strUpper s = "WORKDAY") ∧ info.day_type = some 0)
        ∨ ((∃ s ∈ cfgWorkdayFilter.limit_days, strUpper s = "HOLIDAY")
            ∧ (info.day_type = some 1 ∨ info.day_type = some 2))
        ∨ ((∃ s ∈ cfgWorkdayFilter.limit_days, strUpper s = "WEEKEND")
            ∧ (info.week_day = 6 ∨ info.week_day = 7) ∧ info.day_type = some 1)
        ∨ ((∃ s ∈ cfgWorkdayFilter.limit_days, strUpper s = "WEEKDAY_ONLY")
            ∧ 1 ≤ isoWeekday (base2025 + 60) ∧ isoWeekday (base2025 + 60) ≤ 5)) := by
  exact claim_C3 cfgWorkdayFilter base2025 oracleJan1Workday convNone (base2025 + 60)
    (by decide) (by decide)

/-- C5.  For a one-shot task with an absolute target instant: a target at or
before the base instant yields base plus one second with status PENDING, and
a target still in the future is returned unchanged with status PENDING. -/
theorem claim_C5 (target now : Nat) (oracle : CalendarOracle) (conv : LunarConv) :
    (target ≤ now →
      calculate_initial_trigger_time ⟨false, none, some target, none⟩ now oracle conv
        = .ok (some (now + 1), .PENDING))
    ∧ (now < target →
      calculate_initial_trigger_time ⟨false, none, some target, none⟩ now oracle conv
        = .ok (some target, .PENDING)) := by
  constructor
  · intro h
    simp [calculate_initial_trigger_time, h]
  · intro h
    simp [calculate_initial_trigger_time, Nat.not_le.mpr h]

/-- C5, witness: a target one hour in the past returns now plus one second,
and a future target is returned unchanged. -/
theorem claim_C5_witness :
    calculate_initial_trigger_time ⟨false, none, some 3, none⟩ 5 oracleUnknown convNone
      = .ok (some 6, .PENDING)
    ∧ calculate_initial_trigger_time ⟨false, none, some 9, none⟩ 5 oracleUnknown convNone
      = .ok (some 9, .PENDING) :=
  ⟨(claim_C5 3 5 oracleUnknown convNone).1 (by decide),
   (claim_C5 9 5 oracleUnknown convNone).2 (by decide)⟩

/-- C6.  Countdown parsing: "1d2h3m4s" is exactly 1 day 2 hours 3 minutes
4 seconds (93784 seconds) and yields base plus that duration with PENDING;
an empty or unparseable duration yields no trigger and status FAILED without
an exception reaching the caller; "0d" is a valid zero duration yielding a
trigger equal to the base instant. -/
theorem claim_C6 (now : Nat) (oracle : CalendarOracle) (conv : LunarConv) :
    parse_countdown_duration "1d2h3m4s" = .ok 93784
    ∧ calculate_initial_trigger_time ⟨false, none, none, some "1d2h3m4s"⟩ now oracle conv
        = .ok (some (now + 93784), .PENDING)
    ∧ calculate_initial_trigger_time ⟨false, none, none, some ""⟩ now oracle conv
        = .ok (none, .FAILED)
    ∧ calculate_initial_trigger_time ⟨false, none, none, some "abc"⟩ now oracle conv
        = .ok (none, .FAILED)
    ∧ parse_countdown_duration "0d" = .ok 0
    ∧ calculate_initial_trigger_time ⟨false, none, none, some "0d"⟩ now oracle conv
        = .ok (some now, .PENDING) := by
  exact ⟨rfl, rfl, rfl, rfl, rfl, rfl⟩

/-- C6, witness: the conjunction instantiated at base instant 0. -/
theorem claim_C6_witness :
    parse_countdown_duration "1d2h3m4s" = .ok 93784
    ∧ calculate_initial_trigger_time ⟨false, none, none, some "1d2h3m4s"⟩ 0 oracleUnknown convNone
        = .ok (some 93784, .PENDING)
    ∧ calculate_initial_trigger_time ⟨false, none, none, some ""⟩ 0 oracleUnknown convNone
        = .ok (none, .FAILED)
    ∧ calculate_initial_trigger_time ⟨false, none, none, some "abc"⟩ 0 oracleUnknown convNone
        = .ok (none, .FAILED)
    ∧ parse_countdown_duration "0d" = .ok 0
    ∧ calculate_initial_trigger_time ⟨false, none, none, some "0d"⟩ 0 oracleUnknown convNone
        = .ok (some 0, .PENDING) :=
  claim_C6 0 oracleUnknown convNone

/-- C7.  For a recurring task in a fireable state with a webhook channel and
a known recipient, a notification send failure is committed as status FAILED
for the occurrence, the next occurrence is still computed by the calculator
with now as the base instant, and a concrete PENDING next trigger re-arms
the task in the scheduler: one failed firing does not end the recurrence. -/
theorem claim_C7 (task_id : String) (task : ExecTask) (mail_configured : Bool)
    (now t : Nat) (oracle : CalendarOracle) (conv : LunarConv) (cfg : CronConfig)
    (hst : task.status = .PENDING ∨ task.status = .RUNNING)
    (hrec : task.is_recurring = true)
    (hcfg : task.task_info.cron_config = some cfg)
    (hchat : ∃ cid, task.task_info.target_chat_id = some cid)
    (hweb : task.task_info.has_webhook_channel = true)
    (hnext : get_next_cron_run_time cfg now oracle conv = (some t, .PENDING)) :
    execute_task_by_id task_id (some task) mail_configured false now oracle conv
      = [.setStatus .RUNNING, .setStatus .FAILED, .setNextTrigger (some t),
         .setStatus .PENDING, .armJob task_id t] := by
  obtain ⟨cid, hcid⟩ := hchat
  rcases hst with h | h <;>
    simp [execute_task_by_id, recurringTail, h, hcid, hweb, hrec, hcfg, hnext, Option.orElse]

/-- C7, witness: the recurring task t7 with a failed send is re-armed for
the next minute. -/
theorem claim_C7_witness :
    execute_task_by_id "t7" (some task7) true false base2025 oracleUnknown convNone
      = [.setStatus .RUNNING, .setStatus .FAILED, .setNextTrigger (some (base2025 + 60)),
         .setStatus .PENDING, .armJob "t7" (base2025 + 60)] := by
  exact claim_C7 "t7" task7 true base2025 (base2025 + 60) oracleUnknown convNone cfgPlainMinute
    (Or.inl rfl) rfl rfl ⟨"group1@chatroom", rfl⟩ rfl (by decide)

/-- C8, counterexample.  A loaded task in a non-fireable state (COMPLETED)
whose stored next trigger time is still set: execution is skipped but the
stale timer is NOT disarmed; the executor removes the timer only when the
task has no stored next trigger time. -/
theorem claim_C8_counterexample :
    execute_task_by_id "t8" (some task8stale) true true 0 oracleUnknown convNone = []
    ∧ task8stale.status = .COMPLETED ∧ task8stale.next_trigger_time = some 100 :=
  ⟨rfl, rfl, rfl⟩

/-- C8, amended.  On timer fire with a loaded task whose status is neither
PENDING nor RUNNING, execution is skipped, and the stale timer is disarmed
exactly when the task has no stored next trigger time; otherwise the timer
is left in place. -/
theorem claim_C8_amended (task_id : String) (task : ExecTask) (mc so : Bool) (now : Nat)
    (oracle : CalendarOracle) (conv : LunarConv)
    (h1 : task.status ≠ .PENDING) (h2 : task.status ≠ .RUNNING) :
    execute_task_by_id task_id (some task) mc so now oracle conv
      = if task.next_trigger_time.isNone then [.removeJob task_id] else [] := by
  have hfire : (!(task.status == .PENDING || task.status == .RUNNING)) = true := by
    cases hs : task.status <;> simp_all
  simp [execute_task_by_id, hfire]

/-- C8, witness: a COMPLETED task with no stored trigger time is skipped and
its stale timer removed. -/
theorem claim_C8_amended_witness :
    execute_task_by_id "t8c" (some task8clean) true true 0 oracleUnknown convNone
      = [.removeJob "t8c"] := by
  exact claim_C8_amended "t8c" task8clean true true 0 oracleUnknown convNone
    (by decide) (by decide)

/-- C9.  Arming is an idempotent upsert on the live timer map: arming the
same task twice with identical trigger data equals arming it once, and the
resulting map holds exactly one timer for that task identifier. -/
theorem claim_C9 (jobs : List (String × SchedJob)) (task : ExecTask) (t : Nat)
    (h : task.next_trigger_time = some t) :
    add_or_update_job_in_scheduler (add_or_update_job_in_scheduler jobs task) task
      = add_or_update_job_in_scheduler jobs task
    ∧ ((add_or_update_job_in_scheduler (add_or_update_job_in_scheduler jobs task) task).filter
          (fun j => j.1 == task.id)).length = 1 := by
  simp only [add_or_update_job_in_scheduler, h]
  constructor
  · simp [List.filter_append, List.filter_filter]
  · simp [List.filter_append, List.filter_filter]

/-- C9, witness: arming task t9 twice over a map that already contains a
timer for t9 and one for another task leaves exactly one t9 timer. -/
theorem claim_C9_witness :
    add_or_update_job_in_scheduler
        (add_or_update_job_in_scheduler [("t9", ⟨1, 600⟩), ("other", ⟨2, 600⟩)] task9) task9
      = add_or_update_job_in_scheduler [("t9", ⟨1, 600⟩), ("other", ⟨2, 600⟩)] task9
    ∧ ((add_or_update_job_in_scheduler
          (add_or_update_job_in_scheduler [("t9", ⟨1, 600⟩), ("other", ⟨2, 600⟩)] task9) task9).filter
            (fun j => j.1 == task9.id)).length = 1 :=
  claim_C9 [("t9", ⟨1, 600⟩), ("other", ⟨2, 600⟩)] task9 5000 rfl

theorem limitDaysCheck_ret_statusInv (cfg : CronConfig) (info? : Option HolidayDateDB)
    (c : Nat) (r : Option Nat × TaskStatusEnum) (h : limitDaysCheck cfg info? c = .ret r) :
    statusInv r := by
  unfold limitDaysCheck at h
  split at h
  · cases h; simp [statusInv]
  · split at h
    · cases h; simp [statusInv]
    · split at h
      · cases h; simp [statusInv]
      · simp at h

theorem stepResult_ret_statusInv (cfg : CronConfig) (oracle : CalendarOracle)
    (conv : LunarConv) (c : Nat) (r : Option Nat × TaskStatusEnum)
    (h : stepResult cfg oracle conv c = .ret r) : statusInv r := by
  unfold stepResult at h
  split at h
  · cases h; simp [statusInv]
  · split at h
    · simp at h
    · split at h
      · cases h; simp [statusInv]
      · split at h
        · cases h; simp [statusInv]
        · split at h
          · split at h
            · split at h
              · split at h
                · exact limitDaysCheck_ret_statusInv _ _ _ _ h
                · simp at h
              · simp at h
            · cases h; simp [statusInv]
          · exact limitDaysCheck_ret_statusInv _ _ _ _ h

theorem cronLoop_statusInv (cfg : CronConfig) (oracle : CalendarOracle) (conv : LunarConv) :
    ∀ fuel it, statusInv (cronLoop cfg oracle conv it fuel) := by
  intro fuel
  induction fuel with
  | zero =>
    intro it
    show statusInv ((none : Option Nat), TaskStatusEnum.FAILED)
    simp [statusInv]
  | succ f ih =>
    intro it
    unfold cronLoop
    cases hn : it.getNext with
    | none => simp [statusInv]
    | some p =>
      obtain ⟨c, it2⟩ := p
      show statusInv (match stepResult cfg oracle conv c with
        | StepOut.ret r => r
        | StepOut.skip => cronLoop cfg oracle conv it2 f)
      cases hstep : stepResult cfg oracle conv c with
      | ret r => exact stepResult_ret_statusInv cfg oracle conv c r hstep
      | skip => exact ih it2

/-- C10.  Every result of the trigger-time computations pairs an optional
trigger with a status such that the trigger is present exactly for PENDING
and PENDING_CALCULATION, and FAILED or COMPLETED results carry no trigger;
this holds for the recurring recomputation and for every non-raising return
of the initial computation. -/
theorem claim_C10 :
    (∀ (cfg : CronConfig) (base : Nat) (oracle : CalendarOracle) (conv : LunarConv),
      statusInv (get_next_cron_run_time cfg base oracle conv))
    ∧ ∀ (ti : TaskInfoCreate) (now : Nat) (oracle : CalendarOracle) (conv : LunarConv)
        (r : Option Nat × TaskStatusEnum),
        calculate_initial_trigger_time ti now oracle conv = .ok r → statusInv r := by
  constructor
  · intro cfg base oracle conv
    unfold get_next_cron_run_time
    exact cronLoop_statusInv cfg oracle conv maxAttempts _
  · intro ti now oracle conv r h
    unfold calculate_initial_trigger_time at h
    split at h
    · split at h
      · simp at h
      · cases h
        unfold get_next_cron_run_time
        exact cronLoop_statusInv _ _ _ maxAttempts _
    · split at h
      · split at h
        · cases h; simp [statusInv]
        · cases h; simp [statusInv]
      · split at h
        · split at h
          · cases h; simp [statusInv]
          · cases h; simp [statusInv]
        · simp at h

/-- C10, witness: the invariant evaluated on a concrete recurring result and
on a concrete countdown result. -/
theorem claim_C10_witness :
    statusInv (get_next_cron_run_time cfgPlainMinute base2025 oracleUnknown convNone)
    ∧ statusInv ((some 93784 : Option Nat), TaskStatusEnum.PENDING) :=
  ⟨claim_C10.1 cfgPlainMinute base2025 oracleUnknown convNone,
   claim_C10.2 ⟨false, none, none, some "1d2h3m4s"⟩ 0 oracleUnknown convNone
     (some 93784, .PENDING) rfl⟩
